import Mathlib

/-!
Verification development for the Frogger AVR game core.

The definitions below are a shallow embedding of the game logic found in
`timer0.c` (game state, collision oracle, frog moves, lane/log scrolling,
lives bookkeeping, riverbank patterns) and of the timing/pause logic found
in the main file (`play_game`, `pause_game`, and the countdown-pause
helpers from the timer driver).  Machine integers are modelled as `Nat`
and `Int` with explicit reductions modulo `2^8`, `2^16` and `2^32` at the
points where the C code performs (or may perform) wrapping arithmetic.
Display and hardware I/O (led matrix, PORTA/PORTC writes, terminal
printing) are outside the model: they read but never influence the game
state modelled here.
-/

namespace Frogger

/-- Width of a traffic-lane occupancy pattern (bits), `LANE_DATA_WIDTH` in the source. -/
def LANE_DATA_WIDTH : Nat := 64

/-- Width of a log-channel occupancy pattern (bits), `LOG_DATA_WIDTH` in the source. -/
def LOG_DATA_WIDTH : Nat := 32

/-- Baseline riverbank pattern, the `RIVERBANK` macro in the source. -/
def RIVERBANK : Nat := 0b1101110111011101

/-- Truncation of an `int` expression stored into a `uint8_t` variable. -/
def u8 (x : Int) : Nat := (x % 256).toNat

/-- Decrement of a `uint8_t` variable (`v--`), wrapping at zero. -/
def u8dec (n : Nat) : Nat := (n + 255) % 256

/-- Increment of a `uint8_t` variable (`v++`). -/
def u8inc (n : Nat) : Nat := (n + 1) % 256

/-- Game state: the global variables of `timer0.c` that the game logic reads
and writes.  `frog_row`/`frog_column` are `int8_t` in the source (they can
temporarily leave the board, e.g. column `-1`), lives and flags are
`uint8_t`, the occupancy patterns are 64/32-bit words, the riverbank masks
are 16-bit words.  The score lives in the external score module; it is
included here because the move functions call `add_to_score`. -/
structure GameState where
  frog_row : Int
  frog_column : Int
  frog_dead : Bool
  frog_lives : Nat
  decrement : Bool
  lane_data0 : Nat
  lane_data1 : Nat
  lane_data2 : Nat
  log_data0 : Nat
  log_data1 : Nat
  lane_position0 : Int
  lane_position1 : Int
  lane_position2 : Int
  log_position0 : Int
  log_position1 : Int
  riverbank : Nat
  riverbank_status : Nat
  score : Nat

/-- Read `lane_data[lane]`. -/
def laneData (s : GameState) : Nat → Nat
  | 0 => s.lane_data0
  | 1 => s.lane_data1
  | _ => s.lane_data2

/-- Read `lane_position[lane]`. -/
def lanePosition (s : GameState) : Nat → Int
  | 0 => s.lane_position0
  | 1 => s.lane_position1
  | _ => s.lane_position2

/-- Write `lane_position[lane]`. -/
def setLanePosition (s : GameState) : Nat → Int → GameState
  | 0, p => { s with lane_position0 := p }
  | 1, p => { s with lane_position1 := p }
  | _, p => { s with lane_position2 := p }

/-- Read `log_data[channel]`. -/
def logData (s : GameState) : Nat → Nat
  | 0 => s.log_data0
  | _ => s.log_data1

/-- Read `log_position[channel]`. -/
def logPosition (s : GameState) : Nat → Int
  | 0 => s.log_position0
  | _ => s.log_position1

/-- Write `log_position[channel]`. -/
def setLogPosition (s : GameState) : Nat → Int → GameState
  | 0, p => { s with log_position0 := p }
  | _, p => { s with log_position1 := p }

/-- Collision oracle `will_frog_die_at_position(row, column)` from `timer0.c`.
The `bit_position` local is a `uint8_t`, so the sum `lane_position[lane] +
column` is truncated modulo 256 before the conditional width subtraction,
exactly as in the source.  The function is pure: it only reads the state. -/
def will_frog_die_at_position (s : GameState) (row column : Int) : Bool :=
  if column < 0 ∨ column > 15 then
    true
  else if row = 0 ∨ row = 4 then
    false
  else if row = 1 ∨ row = 2 ∨ row = 3 then
    decide ((laneData s (row - 1).toNat >>>
      (if LANE_DATA_WIDTH ≤ u8 (lanePosition s (row - 1).toNat + column) then
        u8 (lanePosition s (row - 1).toNat + column) - LANE_DATA_WIDTH
      else
        u8 (lanePosition s (row - 1).toNat + column))) &&& 1 = 1)
  else if row = 5 ∨ row = 6 then
    ! decide ((logData s (row - 5).toNat >>>
      (if LOG_DATA_WIDTH ≤ u8 (logPosition s (row - 5).toNat + column) then
        u8 (logPosition s (row - 5).toNat + column) - LOG_DATA_WIDTH
      else
        u8 (logPosition s (row - 5).toNat + column))) &&& 1 = 1)
  else if row = 7 then
    decide ((s.riverbank_status >>> column.toNat) &&& 1 = 1)
  else
    true

/-- Life decrement, `decrement_lives` from `timer0.c`.  Every branch performs
`frog_lives--` (wrapping `uint8_t` arithmetic); only the final `else` branch
additionally sets `frog_dead = 1`.  The `PORTA` writes are hardware I/O and
outside the model. -/
def decrement_lives (s : GameState) : GameState :=
  if s.frog_lives = 4 then
    { s with frog_lives := u8dec s.frog_lives }
  else if s.frog_lives = 3 then
    { s with frog_lives := u8dec s.frog_lives }
  else if s.frog_lives = 2 then
    { s with frog_lives := u8dec s.frog_lives }
  else
    { s with frog_lives := u8dec s.frog_lives, frog_dead := true }

/-- Bonus-life increment, `increment_lives` from `timer0.c`.  Only lives
counts 1, 2 and 3 are incremented; any other count is left unchanged. -/
def increment_lives (s : GameState) : GameState :=
  if s.frog_lives = 3 then
    { s with frog_lives := u8inc s.frog_lives }
  else if s.frog_lives = 2 then
    { s with frog_lives := u8inc s.frog_lives }
  else if s.frog_lives = 1 then
    { s with frog_lives := u8inc s.frog_lives }
  else
    s

/-- Frog placement, `put_frog_in_start_position` from `timer0.c`. -/
def put_frog_in_start_position (s : GameState) : GameState :=
  { s with frog_row := 0, frog_column := 7, frog_dead := false }

/-- Riverbank hole pattern by level, `riverbank_by_level` from `timer0.c`.
The source comments label the branches "Five holes", "Six holes" and
"Standard 4 holes" respectively. -/
def riverbank_by_level (level : Nat) : Nat :=
  if level % 2 = 0 then
    0b1101010111011101
  else if level % 3 = 0 then
    0b1101010101011101
  else
    0b1101110111011101

/-- Game initialisation, `initialise_game` from `timer0.c` (display calls
omitted): positions reset to zero, both riverbank masks set to the baseline
pattern, lives set to 3, then the frog is placed at the start. -/
def initialise_game (s : GameState) : GameState :=
  put_frog_in_start_position
    { s with
      lane_position0 := 0, lane_position1 := 0, lane_position2 := 0,
      log_position0 := 0, log_position1 := 0,
      riverbank := RIVERBANK, riverbank_status := RIVERBANK,
      frog_lives := 3 }

/-- Life initialisation, `initialise_life` from `timer0.c` (display calls
omitted): lane/log positions chosen by level parity, the `decrement` flag
cleared, then the frog is placed at the start. -/
def initialise_life (s : GameState) (level : Nat) : GameState :=
  let s1 :=
    if level % 2 = 0 then
      { s with lane_position0 := 1, lane_position1 := 1, lane_position2 := 1,
               log_position0 := 0, log_position1 := 0 }
    else if level % 3 = 0 then
      { s with lane_position0 := 0, lane_position1 := 0, lane_position2 := 0,
               log_position0 := 1, log_position1 := 1 }
    else
      { s with lane_position0 := 0, lane_position1 := 0, lane_position2 := 0,
               log_position0 := 0, log_position1 := 0 }
  put_frog_in_start_position { s1 with decrement := false }

/-- Level initialisation, `initialise_level` from `timer0.c` (scrolling
message, colour themes and display calls omitted): lane/log positions by
level parity, a bonus life via `increment_lives`, both riverbank masks set
to the pattern selected by `riverbank_by_level`, then the frog is placed at
the start. -/
def initialise_level (s : GameState) (level : Nat) : GameState :=
  let s1 :=
    if level % 2 = 0 then
      { s with lane_position0 := 1, lane_position1 := 1, lane_position2 := 1,
               log_position0 := 0, log_position1 := 0 }
    else if level % 3 = 0 then
      { s with lane_position0 := 0, lane_position1 := 0, lane_position2 := 0,
               log_position0 := 1, log_position1 := 1 }
    else
      { s with lane_position0 := 0, lane_position1 := 0, lane_position2 := 0,
               log_position0 := 0, log_position1 := 0 }
  let s2 := increment_lives s1
  let s3 := { s2 with riverbank := riverbank_by_level level,
                      riverbank_status := riverbank_by_level level }
  put_frog_in_start_position s3

/-- Truncation of the riverbank-status OR update into its `uint16_t`
variable. -/
def u16 (n : Nat) : Nat := n % 65536

/-- Forward move, `move_frog_forward` from `timer0.c`: compute the death
flag at the destination, decrement lives if fatal, advance the row
unconditionally, award the score (10 on reaching row 7, otherwise 1, in
either case regardless of death), then mark the riverbank hole on a safe
arrival in row 7. -/
def move_frog_forward (s : GameState) : GameState :=
  let dec := will_frog_die_at_position s (s.frog_row + 1) s.frog_column
  let s1 := { s with decrement := dec }
  let s2 := if dec then decrement_lives s1 else s1
  let s3 := { s2 with frog_row := s2.frog_row + 1 }
  let s4 := if s3.frog_row = 7 then { s3 with score := s3.score + 10 }
            else { s3 with score := s3.score + 1 }
  if ¬s4.frog_dead ∧ ¬s4.decrement ∧ s4.frog_row = 7 then
    { s4 with riverbank_status := u16 (s4.riverbank_status ||| (1 <<< s4.frog_column.toNat)) }
  else
    s4

/-- Backward move, `move_frog_backward` from `timer0.c`. -/
def move_frog_backward (s : GameState) : GameState :=
  let dec := will_frog_die_at_position s (s.frog_row - 1) s.frog_column
  let s1 := { s with decrement := dec }
  let s2 := if dec then decrement_lives s1 else s1
  let s3 := { s2 with frog_row := s2.frog_row - 1 }
  if ¬s3.frog_dead ∧ ¬s3.decrement ∧ s3.frog_row = 7 then
    { s3 with riverbank_status := u16 (s3.riverbank_status ||| (1 <<< s3.frog_column.toNat)) }
  else
    s3

/-- Left move, `move_frog_to_left` from `timer0.c`: the stored column is
decremented unconditionally, even when the oracle reported the boundary
move as fatal. -/
def move_frog_to_left (s : GameState) : GameState :=
  let dec := will_frog_die_at_position s s.frog_row (s.frog_column - 1)
  let s1 := { s with decrement := dec }
  let s2 := if dec then decrement_lives s1 else s1
  let s3 := { s2 with frog_column := s2.frog_column - 1 }
  if ¬s3.frog_dead ∧ ¬s3.decrement ∧ s3.frog_row = 7 then
    { s3 with riverbank_status := u16 (s3.riverbank_status ||| (1 <<< s3.frog_column.toNat)) }
  else
    s3

/-- Right move, `move_frog_to_right` from `timer0.c`: the stored column is
incremented unconditionally, even when the oracle reported the boundary
move as fatal. -/
def move_frog_to_right (s : GameState) : GameState :=
  let dec := will_frog_die_at_position s s.frog_row (s.frog_column + 1)
  let s1 := { s with decrement := dec }
  let s2 := if dec then decrement_lives s1 else s1
  let s3 := { s2 with frog_column := s2.frog_column + 1 }
  if ¬s3.frog_dead ∧ ¬s3.decrement ∧ s3.frog_row = 7 then
    { s3 with riverbank_status := u16 (s3.riverbank_status ||| (1 <<< s3.frog_column.toNat)) }
  else
    s3

/-- Wrap-around clamp applied to a lane position in `scroll_vehicle_lane`. -/
def wrapLane (p : Int) : Int :=
  if p < 0 then 63 else if 64 ≤ p then 0 else p

/-- Wrap-around clamp applied to a log position in `scroll_river_channel`. -/
def wrapLog (p : Int) : Int :=
  if p < 0 then 31 else if 32 ≤ p then 0 else p

/-- Lane rotation, `scroll_vehicle_lane` from `timer0.c`: the lane position
moves by `-direction` with wrap-around; if the frog sits in this lane's row,
the oracle is re-queried at the frog's unchanged cell (against the updated
lane position) and a fatal answer decrements the lives. -/
def scroll_vehicle_lane (s : GameState) (lane : Nat) (direction : Int) : GameState :=
  let frog_is_in_this_row := s.frog_row = (lane : Int) + 1
  let s1 := setLanePosition s lane (wrapLane (lanePosition s lane - direction))
  if frog_is_in_this_row then
    let dec := will_frog_die_at_position s1 s1.frog_row s1.frog_column
    let s2 := { s1 with decrement := dec }
    if dec then decrement_lives s2 else s2
  else
    s1

/-- Channel rotation, `scroll_river_channel` from `timer0.c`: if the frog
sits in this channel's row it is carried with the log (`frog_column +=
direction`) unless it would be pushed past a board edge, in which case
`decrement_lives` is called and the column stays; afterwards the log
position moves by `-direction` with wrap-around.  Unlike the lane case, the
collision oracle is never consulted here. -/
def scroll_river_channel (s : GameState) (channel : Nat) (direction : Int) : GameState :=
  let frog_is_in_this_row := s.frog_row = (channel : Int) + 5
  let s1 :=
    if frog_is_in_this_row then
      if direction = 1 ∧ s.frog_column = 15 then decrement_lives s
      else if direction = -1 ∧ s.frog_column = 0 then decrement_lives s
      else { s with frog_column := s.frog_column + direction }
    else
      s
  setLogPosition s1 channel (wrapLog (logPosition s1 channel - direction))

/-! Timing model: `play_game` / `pause_game` from the main file and the
countdown-pause helpers from `timer0.c`.  All clock values are `uint32_t`. -/

/-- Modulus of `uint32_t` arithmetic. -/
def M32 : Nat := 4294967296

/-- Unsigned 32-bit addition. -/
def add32 (a b : Nat) : Nat := (a + b) % M32

/-- Unsigned 32-bit subtraction `a - b`. -/
def sub32 (a b : Nat) : Nat := (a % M32 + (M32 - b % M32)) % M32

/-- Per-level speed-up accumulator of `play_game`: the `uint16_t` variable
`speed_up_by` starts at 0 and gains 50 at each level-complete transition. -/
def speed_up_after : Nat → Nat
  | 0 => 0
  | n + 1 => (speed_up_after n + 50) % 65536

/-- Pause bookkeeping of the main file: `time_paused`, `begin_pause` and the
`paused` flag. -/
structure MainTiming where
  time_paused : Nat
  begin_pause : Nat
  paused : Bool

/-- The `pause_game` toggle from the main file: unpausing overwrites
`time_paused` with `now - begin_pause` (the duration of the most recent
pause only); pausing records `begin_pause` and sets the flag. -/
def pause_game (t : MainTiming) (now : Nat) : MainTiming :=
  if t.paused then
    { t with time_paused := sub32 now t.begin_pause, paused := false }
  else
    { t with begin_pause := now, paused := true }

/-- The motion-channel trigger test of `play_game` for a channel with base
cadence `base`:  `!paused && current_time - time_paused >= last_move_time +
base - speed_up_by`, all in `uint32_t` arithmetic. -/
def channel_triggers (t : MainTiming) (now lmt base sp : Nat) : Prop :=
  t.paused = false ∧ sub32 (add32 lmt base) sp ≤ sub32 now t.time_paused

instance (t : MainTiming) (now lmt base sp : Nat) :
    Decidable (channel_triggers t now lmt base sp) := by
  unfold channel_triggers
  infer_instance

/-- Countdown pause bookkeeping of `timer0.c`: `total_time_paused`,
`start_pause` and the `is_paused` flag. -/
structure CountdownTiming where
  total_time_paused : Nat
  start_pause : Nat
  is_paused : Bool

/-- The `countdown_pause` toggle from `timer0.c`: pausing records
`start_pause`; unpausing accumulates `now - start_pause` into
`total_time_paused`. -/
def countdown_pause (c : CountdownTiming) (now : Nat) : CountdownTiming :=
  if c.is_paused = false then
    { c with start_pause := now, is_paused := true }
  else
    { c with total_time_paused := add32 c.total_time_paused (sub32 now c.start_pause),
             is_paused := false }

/-- The `amount_time_paused` query from `timer0.c`. -/
def amount_time_paused (c : CountdownTiming) (now : Nat) : Nat :=
  if c.is_paused then
    add32 c.total_time_paused (sub32 now c.start_pause)
  else
    c.total_time_paused

/-- Number of holes (zero bits) in a 16-bit riverbank pattern. -/
def holes16 (n : Nat) : Nat :=
  (List.range 16).countP (fun i => (n >>> i) &&& 1 == 0)

/-- Concrete game state builder used by witnesses and counterexamples: frog
data as given, occupancy patterns exactly as the static arrays in
`timer0.c`, both riverbank masks at the baseline pattern, score 0. -/
def mkTestState (row col : Int) (dead : Bool) (lives : Nat)
    (p0 p1 p2 q0 q1 : Int) : GameState :=
  { frog_row := row, frog_column := col, frog_dead := dead, frog_lives := lives,
    decrement := false,
    lane_data0 := 0b1100001100011000110000011001100011000011000110001100000110011000,
    lane_data1 := 0b0011100000111000011100000111000011100001110001110000111000011100,
    lane_data2 := 0b0000111100001111000011110000111100001111000001111100001111000111,
    log_data0 := 0b11110001100111000111100011111000,
    log_data1 := 0b11100110111101100001110110011100,
    lane_position0 := p0, lane_position1 := p1, lane_position2 := p2,
    log_position0 := q0, log_position1 := q1,
    riverbank := RIVERBANK, riverbank_status := RIVERBANK, score := 0 }

/-- Restatement of the collision oracle in the claim's own words: the bit
index is `(offset + column) mod width` computed with ordinary modular
arithmetic.  Defined for comparison with `will_frog_die_at_position`. -/
def would_die_at_spec (s : GameState) (row column : Int) : Bool :=
  if column < 0 ∨ column > 15 then
    true
  else if row = 0 ∨ row = 4 then
    false
  else if row = 1 ∨ row = 2 ∨ row = 3 then
    decide ((laneData s (row - 1).toNat >>>
      ((lanePosition s (row - 1).toNat + column).toNat % 64)) &&& 1 = 1)
  else if row = 5 ∨ row = 6 then
    ! decide ((logData s (row - 5).toNat >>>
      ((logPosition s (row - 5).toNat + column).toNat % 32)) &&& 1 = 1)
  else if row = 7 then
    decide ((s.riverbank_status >>> column.toNat) &&& 1 = 1)
  else
    true

/-- Witness state for the oracle claim: frog on a traffic row, all lane and
log offsets in range. -/
def c1State : GameState := mkTestState 2 5 false 3 3 5 7 4 9

/-- Dead-frog state after the fourth fatal decrement: zero lives, dead flag
set, frog at the start cell, where the forward destination is fatal. -/
def c2DeadState : GameState := mkTestState 0 7 true 0 0 0 0 0 0

/-- Fresh four-lives state used to run the fatal-decrement sequence. -/
def c2AliveState : GameState := mkTestState 0 7 false 4 0 0 0 0 0

/-- Dead-frog state used to show the lives invariant is not preserved by a
decrement on a dead frog. -/
def c3DeadState : GameState := mkTestState 1 3 true 0 0 0 0 0 0

/-- Alive two-lives state used to instantiate the lives invariant lemmas. -/
def c3AliveState : GameState := mkTestState 0 7 false 2 0 0 0 0 0

/-- River-row state with the frog over open water (no log bit at its cell):
log channel 0 at offset 0 has zero bits at columns 0, 1 and 2. -/
def c4RiverState : GameState := mkTestState 5 1 false 3 0 0 0 0 0

/-- Traffic-row state used to instantiate the lane-rotation death handling. -/
def c4LaneState : GameState := mkTestState 1 5 false 3 0 0 0 0 0

/-- Frog at the leftmost column, about to receive a Left move. -/
def c5LeftState : GameState := mkTestState 4 0 false 4 0 0 0 0 0

/-- Frog at the rightmost column, about to receive a Right move. -/
def c5RightState : GameState := mkTestState 4 15 false 4 0 0 0 0 0

/-- State with lane 0 at offset 62 used to run the rotation round trip. -/
def c9State : GameState := mkTestState 4 7 false 3 62 5 9 4 11

/-- Main-loop pause bookkeeping after pause(100), resume(500), pause(600),
resume(610): the first 400 ms pause interval has been overwritten. -/
def c8MainTrace : MainTiming :=
  pause_game (pause_game (pause_game (pause_game ⟨0, 0, false⟩ 100) 500) 600) 610

/-- Countdown pause bookkeeping after the same four toggle events: the
accumulator holds the full 410 ms of paused time. -/
def c8CountdownTrace : CountdownTiming :=
  countdown_pause (countdown_pause (countdown_pause (countdown_pause ⟨0, 0, false⟩ 100) 500) 600) 610

/-- Lives invariant claimed by the specification: the lives counter stays in
the range 0..4 and is zero exactly when the frog is dead. -/
def LivesInv (s : GameState) : Prop :=
  s.frog_lives ≤ 4 ∧ (s.frog_lives = 0 ↔ s.frog_dead = true)

instance (s : GameState) : Decidable (LivesInv s) := by
  unfold LivesInv
  infer_instance

end Frogger

namespace Frogger

/-! Helper lemmas about the embedded operations. -/

/-- Every branch of `decrement_lives` performs the same wrapping decrement
of the lives counter. -/
theorem decrement_lives_frog_lives (s : GameState) :
    (decrement_lives s).frog_lives = u8dec s.frog_lives := by
  unfold decrement_lives
  split_ifs <;> rfl

/-- The lives decrement never moves the frog. -/
theorem decrement_lives_frog_row (s : GameState) :
    (decrement_lives s).frog_row = s.frog_row := by
  unfold decrement_lives
  split_ifs <;> rfl

/-- The lives decrement never moves the frog sideways. -/
theorem decrement_lives_frog_column (s : GameState) :
    (decrement_lives s).frog_column = s.frog_column := by
  unfold decrement_lives
  split_ifs <;> rfl

/-- The lives decrement never touches the score. -/
theorem decrement_lives_score (s : GameState) :
    (decrement_lives s).score = s.score := by
  unfold decrement_lives
  split_ifs <;> rfl

/-- The dead flag after a decrement: set exactly when the lives counter was
outside the 2..4 branch range (in particular when it was 1), otherwise kept. -/
theorem decrement_lives_frog_dead (s : GameState) :
    (decrement_lives s).frog_dead =
      (if s.frog_lives = 4 ∨ s.frog_lives = 3 ∨ s.frog_lives = 2 then s.frog_dead else true) := by
  unfold decrement_lives
  split_ifs <;> simp_all

/-- Conditional-subtraction bit index equals the claim's mod-64 index for an
in-range lane offset and an on-board column. -/
theorem shifted_bit_eq64 (A : Nat) (p c : Int) (hp0 : 0 ≤ p) (hpw : p < 64)
    (hc0 : 0 ≤ c) (hc : c ≤ 15) :
    decide ((A >>> (if LANE_DATA_WIDTH ≤ u8 (p + c) then u8 (p + c) - LANE_DATA_WIDTH
      else u8 (p + c))) &&& 1 = 1)
      = decide ((A >>> ((p + c).toNat % 64)) &&& 1 = 1) := by
  have h : (if LANE_DATA_WIDTH ≤ u8 (p + c) then u8 (p + c) - LANE_DATA_WIDTH
      else u8 (p + c)) = (p + c).toNat % 64 := by
    simp only [u8, LANE_DATA_WIDTH]
    split_ifs with h <;> omega
  rw [h]

/-- Conditional-subtraction bit index equals the claim's mod-32 index for an
in-range log offset and an on-board column. -/
theorem shifted_bit_eq32 (A : Nat) (p c : Int) (hp0 : 0 ≤ p) (hpw : p < 32)
    (hc0 : 0 ≤ c) (hc : c ≤ 15) :
    decide ((A >>> (if LOG_DATA_WIDTH ≤ u8 (p + c) then u8 (p + c) - LOG_DATA_WIDTH
      else u8 (p + c))) &&& 1 = 1)
      = decide ((A >>> ((p + c).toNat % 32)) &&& 1 = 1) := by
  have h : (if LOG_DATA_WIDTH ≤ u8 (p + c) then u8 (p + c) - LOG_DATA_WIDTH
      else u8 (p + c)) = (p + c).toNat % 32 := by
    simp only [u8, LOG_DATA_WIDTH]
    split_ifs with h <;> omega
  rw [h]

/-- Claim C1: for in-range lane and log offsets, the collision oracle agrees
with the claim's description on every row and column: out-of-range columns
are fatal, rows 0 and 4 are safe, traffic rows 1..3 return the lane bit at
index `(offset + column) mod 64`, river rows 5..6 return the negated log bit
at index `(offset + column) mod 32`, row 7 returns the riverbank fill bit at
the column, and every other row is fatal.  The oracle is a pure function of
the state: it modifies nothing. -/
theorem C1_oracle_matches_spec (s : GameState)
    (hl0 : 0 ≤ s.lane_position0 ∧ s.lane_position0 < 64)
    (hl1 : 0 ≤ s.lane_position1 ∧ s.lane_position1 < 64)
    (hl2 : 0 ≤ s.lane_position2 ∧ s.lane_position2 < 64)
    (hg0 : 0 ≤ s.log_position0 ∧ s.log_position0 < 32)
    (hg1 : 0 ≤ s.log_position1 ∧ s.log_position1 < 32)
    (row column : Int) :
    will_frog_die_at_position s row column = would_die_at_spec s row column := by
  unfold will_frog_die_at_position would_die_at_spec
  by_cases h1 : column < 0 ∨ column > 15
  · rw [if_pos h1, if_pos h1]
  · rcases not_or.mp h1 with ⟨h1a, h1b⟩
    have hc0 : 0 ≤ column := not_lt.mp h1a
    have hc15 : column ≤ 15 := not_lt.mp h1b
    rw [if_neg h1, if_neg h1]
    by_cases h2 : row = 0 ∨ row = 4
    · rw [if_pos h2, if_pos h2]
    · rw [if_neg h2, if_neg h2]
      by_cases h3 : row = 1 ∨ row = 2 ∨ row = 3
      · rw [if_pos h3, if_pos h3]
        rcases h3 with rfl | rfl | rfl
        · exact shifted_bit_eq64 (laneData s 0) (lanePosition s 0) column hl0.1 hl0.2 hc0 hc15
        · exact shifted_bit_eq64 (laneData s 1) (lanePosition s 1) column hl1.1 hl1.2 hc0 hc15
        · exact shifted_bit_eq64 (laneData s 2) (lanePosition s 2) column hl2.1 hl2.2 hc0 hc15
      · rw [if_neg h3, if_neg h3]
        by_cases h4 : row = 5 ∨ row = 6
        · rw [if_pos h4, if_pos h4]
          rcases h4 with rfl | rfl
          · exact congrArg Bool.not
              (shifted_bit_eq32 (logData s 0) (logPosition s 0) column hg0.1 hg0.2 hc0 hc15)
          · exact congrArg Bool.not
              (shifted_bit_eq32 (logData s 1) (logPosition s 1) column hg1.1 hg1.2 hc0 hc15)
        · rw [if_neg h4, if_neg h4]

/-- Witness for claim C1 at a concrete state, row and column. -/
theorem C1_oracle_matches_spec_witness :
    (0 ≤ c1State.lane_position0 ∧ c1State.lane_position0 < 64)
      ∧ (0 ≤ c1State.lane_position1 ∧ c1State.lane_position1 < 64)
      ∧ (0 ≤ c1State.lane_position2 ∧ c1State.lane_position2 < 64)
      ∧ (0 ≤ c1State.log_position0 ∧ c1State.log_position0 < 32)
      ∧ (0 ≤ c1State.log_position1 ∧ c1State.log_position1 < 32)
      ∧ will_frog_die_at_position c1State 2 5 = would_die_at_spec c1State 2 5 :=
  ⟨by decide, by decide, by decide, by decide, by decide,
    C1_oracle_matches_spec c1State (by decide) (by decide) (by decide) (by decide) (by decide) 2 5⟩

/-- Claim C2 counterexample: with the frog already dead at zero lives, a
fifth fatal forward move is not a no-op.  The lives counter wraps from 0 to
255, the frog still advances a row, and the score is still awarded. -/
theorem C2_counterexample :
    c2DeadState.frog_dead = true ∧ c2DeadState.frog_lives = 0
      ∧ will_frog_die_at_position c2DeadState (c2DeadState.frog_row + 1) c2DeadState.frog_column = true
      ∧ (move_frog_forward c2DeadState).frog_lives = 255
      ∧ (move_frog_forward c2DeadState).frog_row = 1
      ∧ (move_frog_forward c2DeadState).score = c2DeadState.score + 1 := by
  decide

/-- Claim C3 counterexample: the fatal-move decrement applied to a state
satisfying the claimed invariant (zero lives, dead) leaves the lives counter
at 255, outside the 0..4 range. -/
theorem C3_counterexample :
    c3DeadState.frog_lives = 0 ∧ c3DeadState.frog_dead = true
      ∧ (decrement_lives c3DeadState).frog_lives = 255
      ∧ 4 < (decrement_lives c3DeadState).frog_lives := by
  decide

/-- Claim C4 counterexample: rotating river channel 0 while the frog sits at
(5,1) over open water.  The collision oracle reports the frog's cell fatal
both before and after the rotation, yet `scroll_river_channel` decrements no
life and simply carries the frog to column 2: the oracle is never consulted
for river rotations. -/
theorem C4_counterexample :
    c4RiverState.frog_row = 5 ∧ c4RiverState.frog_lives = 3
      ∧ will_frog_die_at_position c4RiverState 5 1 = true
      ∧ will_frog_die_at_position (scroll_river_channel c4RiverState 0 1) 5 1 = true
      ∧ (scroll_river_channel c4RiverState 0 1).frog_lives = 3
      ∧ (scroll_river_channel c4RiverState 0 1).frog_column = 2 := by
  decide

/-- Claim C5: a Left move at column 0 stores column -1 and a Right move at
column 15 stores column 16; the life is decremented but the stored column is
not clamped to the board. -/
theorem C5_boundary_column_escapes :
    (move_frog_to_left c5LeftState).frog_column = -1
      ∧ (move_frog_to_left c5LeftState).frog_lives = 3
      ∧ (move_frog_to_right c5RightState).frog_column = 16
      ∧ (move_frog_to_right c5RightState).frog_lives = 3 := by
  decide

/-- Claim C6 counterexample: the pattern selected for levels divisible by 3
has six holes, strictly more than both the baseline pattern (four holes) and
the divisible-by-2 pattern (five holes), not fewer. -/
theorem C6_counterexample :
    holes16 (riverbank_by_level 1) = 4 ∧ holes16 (riverbank_by_level 2) = 5
      ∧ holes16 (riverbank_by_level 3) = 6
      ∧ ¬ holes16 (riverbank_by_level 3) < holes16 (riverbank_by_level 1)
      ∧ ¬ holes16 (riverbank_by_level 3) < holes16 (riverbank_by_level 2) := by
  decide

/-- Claim C7 counterexample: after sixteen level-complete transitions the
speed-up reaches 800 ms, exceeding the smallest base cadence of 750 ms; the
unsigned subtraction `750 - speed_up` wraps to `2^32 - 50`, so the channel
with the smallest base cadence now has the largest effective threshold — the
cadence ordering is inverted and there is no floor. -/
theorem C7_counterexample :
    speed_up_after 16 = 800
      ∧ 750 < speed_up_after 16
      ∧ sub32 1300 (speed_up_after 16) < sub32 750 (speed_up_after 16)
      ∧ sub32 750 (speed_up_after 16) = M32 - 50 := by
  decide

/-- Claim C8: after the pause/resume sequence pause(100), resume(500),
pause(600), resume(610), the main loop's `time_paused` holds only the last
10 ms interval — `pause_game` overwrites instead of accumulating — so the
750 ms channel fires at t = 760 although only 350 ms of unpaused time have
elapsed (the countdown bookkeeping, which does accumulate all 410 ms of
paused time, shows the true unpaused elapsed time). -/
theorem C8_pause_compensation_dropped :
    c8MainTrace.time_paused = 10
      ∧ c8CountdownTrace.total_time_paused = 410
      ∧ channel_triggers c8MainTrace 760 0 750 0
      ∧ sub32 760 (amount_time_paused c8CountdownTrace 760) = 350
      ∧ sub32 760 (amount_time_paused c8CountdownTrace 760) < 750 := by
  decide

/-- Claim C10: every forward move awards the score for its destination row —
10 points when the destination row is 7, 1 point otherwise — regardless of
whether the move was fatal, while backward, left and right moves never
change the score. -/
theorem C10_score_awards (s : GameState) :
    (move_frog_forward s).score = s.score + (if s.frog_row + 1 = 7 then 10 else 1)
      ∧ (move_frog_backward s).score = s.score
      ∧ (move_frog_to_left s).score = s.score
      ∧ (move_frog_to_right s).score = s.score := by
  refine ⟨?_, ?_, ?_, ?_⟩
  · simp only [move_frog_forward, apply_ite GameState.score, apply_ite GameState.frog_row,
      decrement_lives_score, decrement_lives_frog_row, ite_self]
    split_ifs <;> simp
  · simp only [move_frog_backward, apply_ite GameState.score,
      decrement_lives_score, ite_self]
  · simp only [move_frog_to_left, apply_ite GameState.score,
      decrement_lives_score, ite_self]
  · simp only [move_frog_to_right, apply_ite GameState.score,
      decrement_lives_score, ite_self]

/-- Claim C2 as amended: from 4 lives with the frog alive, four consecutive
life decrements yield 3, 2, 1, 0 and exactly the fourth sets the dead flag;
a fifth decrement is not guarded — it wraps the `uint8_t` lives counter from
0 to 255 and leaves the dead flag set.  (The game loop exits on death, so
the fifth call never happens during play.) -/
theorem C2_amended_lives_sequence (s : GameState)
    (h4 : s.frog_lives = 4) (ha : s.frog_dead = false) :
    (decrement_lives s).frog_lives = 3
      ∧ (decrement_lives s).frog_dead = false
      ∧ (decrement_lives (decrement_lives s)).frog_lives = 2
      ∧ (decrement_lives (decrement_lives s)).frog_dead = false
      ∧ (decrement_lives (decrement_lives (decrement_lives s))).frog_lives = 1
      ∧ (decrement_lives (decrement_lives (decrement_lives s))).frog_dead = false
      ∧ (decrement_lives (decrement_lives (decrement_lives (decrement_lives s)))).frog_lives = 0
      ∧ (decrement_lives (decrement_lives (decrement_lives (decrement_lives s)))).frog_dead = true
      ∧ (decrement_lives (decrement_lives (decrement_lives (decrement_lives
          (decrement_lives s))))).frog_lives = 255
      ∧ (decrement_lives (decrement_lives (decrement_lives (decrement_lives
          (decrement_lives s))))).frog_dead = true := by
  have e1 : decrement_lives s = { s with frog_lives := 3 } := by
    simp [decrement_lives, h4, u8dec]
  have e2 : decrement_lives { s with frog_lives := 3 } = { s with frog_lives := 2 } := by
    simp [decrement_lives, u8dec]
  have e3 : decrement_lives { s with frog_lives := 2 } = { s with frog_lives := 1 } := by
    simp [decrement_lives, u8dec]
  have e4 : decrement_lives { s with frog_lives := 1 }
      = { s with frog_lives := 0, frog_dead := true } := by
    simp [decrement_lives, u8dec]
  have e5 : decrement_lives { s with frog_lives := 0, frog_dead := true }
      = { s with frog_lives := 255, frog_dead := true } := by
    simp [decrement_lives, u8dec]
  rw [e1, e2, e3, e4, e5]
  simp [ha]

/-- Witness for the amended claim C2 at a concrete four-lives state. -/
theorem C2_amended_lives_sequence_witness :
    c2AliveState.frog_lives = 4 ∧ c2AliveState.frog_dead = false
      ∧ (decrement_lives c2AliveState).frog_lives = 3 :=
  ⟨by decide, by decide, (C2_amended_lives_sequence c2AliveState (by decide) (by decide)).1⟩

/-- Claim C3 as amended: the lives invariant (counter in 0..4, zero exactly
when dead) is preserved by the fatal-move decrement whenever the frog is
alive, preserved by the bonus-life increment always (which also never raises
lives above 4), established by game initialisation, and preserved by
life/level initialisation whenever the frog is alive.  A decrement on an
already-dead frog would wrap the counter to 255, but the game loop never
performs one. -/
theorem C3_amended_lives_invariant :
    (∀ s, LivesInv s → s.frog_dead = false → LivesInv (decrement_lives s))
      ∧ (∀ s, LivesInv s → LivesInv (increment_lives s) ∧ (increment_lives s).frog_lives ≤ 4)
      ∧ (∀ s, LivesInv (initialise_game s))
      ∧ (∀ s level, LivesInv s → s.frog_dead = false → LivesInv (initialise_life s level))
      ∧ (∀ s level, LivesInv s → s.frog_dead = false → LivesInv (initialise_level s level)) := by
  refine ⟨?_, ?_, ?_, ?_, ?_⟩
  · intro s hInv ha
    obtain ⟨hle, hiff⟩ := hInv
    have hne : s.frog_lives ≠ 0 := fun h0 => by simp [ha] at hiff; exact hiff h0
    unfold decrement_lives
    split_ifs with hA hB hC <;>
      refine ⟨by simp [u8dec]; omega, ?_⟩ <;>
      simp only [u8dec] <;> simp [ha] <;> omega
  · intro s hInv
    obtain ⟨hle, hiff⟩ := hInv
    unfold increment_lives
    split_ifs with hA hB hC
    · have hd : s.frog_dead = false := by
        cases hd : s.frog_dead
        · rfl
        · have := hiff.mpr hd
          omega
      exact ⟨⟨by simp [u8inc, hA], by simp [u8inc, hA, hd]⟩, by simp [u8inc, hA]⟩
    · have hd : s.frog_dead = false := by
        cases hd : s.frog_dead
        · rfl
        · have := hiff.mpr hd
          omega
      exact ⟨⟨by simp [u8inc, hB], by simp [u8inc, hB, hd]⟩, by simp [u8inc, hB]⟩
    · have hd : s.frog_dead = false := by
        cases hd : s.frog_dead
        · rfl
        · have := hiff.mpr hd
          omega
      exact ⟨⟨by simp [u8inc, hC], by simp [u8inc, hC, hd]⟩, by simp [u8inc, hC]⟩
    · exact ⟨⟨hle, hiff⟩, hle⟩
  · intro s
    simp [initialise_game, put_frog_in_start_position, LivesInv]
  · intro s level hInv ha
    obtain ⟨hle, hiff⟩ := hInv
    have hne : s.frog_lives ≠ 0 := fun h0 => by simp [ha] at hiff; exact hiff h0
    unfold initialise_life put_frog_in_start_position
    split_ifs <;> exact ⟨hle, by simpa using hne⟩
  · intro s level hInv ha
    obtain ⟨hle, hiff⟩ := hInv
    have hne : s.frog_lives ≠ 0 := fun h0 => by simp [ha] at hiff; exact hiff h0
    have hc : s.frog_lives = 1 ∨ s.frog_lives = 2 ∨ s.frog_lives = 3 ∨ s.frog_lives = 4 := by
      omega
    rcases hc with h | h | h | h <;>
      simp [initialise_level, put_frog_in_start_position, increment_lives, LivesInv, u8inc, h,
        apply_ite GameState.frog_lives, apply_ite GameState.frog_dead, ite_self]

/-- Witness for the amended claim C3 at a concrete alive state. -/
theorem C3_amended_lives_invariant_witness :
    LivesInv c3AliveState ∧ c3AliveState.frog_dead = false
      ∧ LivesInv (decrement_lives c3AliveState) :=
  ⟨by decide, by decide, C3_amended_lives_invariant.1 c3AliveState (by decide) (by decide)⟩

/-- Claim C4 as amended: when a traffic lane the frog occupies is rotated,
the oracle is re-queried at the frog's unchanged cell against the updated
lane position and a fatal answer decrements the lives; when a river channel
the frog occupies is rotated the oracle is never consulted — the frog is
carried with the log (column shifted by the direction) except at the board
edge for the rotation direction, where a life is decremented and the column
stays. -/
theorem C4_amended_lane_shift_handling :
    (∀ (s : GameState) (lane : Nat) (d : Int), lane ≤ 2 → s.frog_row = (lane : Int) + 1 →
        (scroll_vehicle_lane s lane d).frog_lives =
          (if will_frog_die_at_position
              (setLanePosition s lane (wrapLane (lanePosition s lane - d)))
              s.frog_row s.frog_column
           then u8dec s.frog_lives else s.frog_lives)
        ∧ (scroll_vehicle_lane s lane d).frog_row = s.frog_row
        ∧ (scroll_vehicle_lane s lane d).frog_column = s.frog_column)
      ∧ (∀ (s : GameState) (channel : Nat) (d : Int), channel ≤ 1 →
          s.frog_row = (channel : Int) + 5 →
          (scroll_river_channel s channel d).frog_lives =
            (if (d = 1 ∧ s.frog_column = 15) ∨ (d = -1 ∧ s.frog_column = 0)
             then u8dec s.frog_lives else s.frog_lives)
          ∧ (scroll_river_channel s channel d).frog_column =
            (if (d = 1 ∧ s.frog_column = 15) ∨ (d = -1 ∧ s.frog_column = 0)
             then s.frog_column else s.frog_column + d)) := by
  constructor
  · intro s lane d hlane hrow
    have hfr : ∀ p, (setLanePosition s lane p).frog_row = s.frog_row := fun p => by
      rcases lane with _ | _ | n <;> rfl
    have hfc : ∀ p, (setLanePosition s lane p).frog_column = s.frog_column := fun p => by
      rcases lane with _ | _ | n <;> rfl
    have hfl : ∀ p, (setLanePosition s lane p).frog_lives = s.frog_lives := fun p => by
      rcases lane with _ | _ | n <;> rfl
    simp only [scroll_vehicle_lane]
    rw [if_pos hrow]
    simp only [hfr, hfc]
    cases hdec : will_frog_die_at_position
        (setLanePosition s lane (wrapLane (lanePosition s lane - d)))
        s.frog_row s.frog_column <;>
      simp [hdec, decrement_lives_frog_lives, decrement_lives_frog_row,
        decrement_lives_frog_column, hfr, hfc, hfl]
  · intro s channel d hch hrow
    have hlf : ∀ (t : GameState) p, (setLogPosition t channel p).frog_lives = t.frog_lives :=
      fun t p => by rcases channel with _ | n <;> rfl
    have hlc : ∀ (t : GameState) p, (setLogPosition t channel p).frog_column = t.frog_column :=
      fun t p => by rcases channel with _ | n <;> rfl
    simp only [scroll_river_channel]
    rw [if_pos hrow]
    simp only [hlf, hlc]
    by_cases h1 : d = 1 ∧ s.frog_column = 15
    · simp [h1, decrement_lives_frog_lives, decrement_lives_frog_column]
    · by_cases h2 : d = -1 ∧ s.frog_column = 0
      · simp [h1, h2, decrement_lives_frog_lives, decrement_lives_frog_column]
      · simp [h1, h2]

/-- Witness for the amended claim C4: lane rotation with the frog in the
lane's row keeps the frog's cell, and river rotation away from the edge
carries the frog by the direction. -/
theorem C4_amended_lane_shift_handling_witness :
    c4LaneState.frog_row = ((0 : Nat) : Int) + 1
      ∧ (scroll_vehicle_lane c4LaneState 0 1).frog_row = c4LaneState.frog_row
      ∧ c4RiverState.frog_row = ((0 : Nat) : Int) + 5 :=
  ⟨by decide,
    (C4_amended_lane_shift_handling.1 c4LaneState 0 1 (by decide) (by decide)).2.1,
    by decide⟩

/-- Claim C6 as amended: the riverbank pattern is a total function of
`level mod 2` and `level mod 3` over three fixed patterns, every level whose
number is divisible by neither 2 nor 3 falls through to the baseline, and at
level start both the edge mask and the fill mask are set to the selected
pattern.  Hole counts: the divisible-by-2 pattern has five holes and the
divisible-by-3 pattern six — both more than the baseline's four, with the
divisible-by-3 pattern the largest (not fewer, as the claim stated). -/
theorem C6_amended_riverbank_selection :
    (∀ lv lv', lv % 2 = lv' % 2 → lv % 3 = lv' % 3 →
        riverbank_by_level lv = riverbank_by_level lv')
      ∧ (∀ lv, ¬ lv % 2 = 0 → ¬ lv % 3 = 0 → riverbank_by_level lv = RIVERBANK)
      ∧ holes16 (riverbank_by_level 2) = 5
      ∧ holes16 (riverbank_by_level 3) = 6
      ∧ holes16 RIVERBANK = 4
      ∧ (∀ s lv, (initialise_level s lv).riverbank = riverbank_by_level lv
          ∧ (initialise_level s lv).riverbank_status = riverbank_by_level lv) := by
  refine ⟨?_, ?_, by decide, by decide, by decide, ?_⟩
  · intro lv lv' h2 h3
    unfold riverbank_by_level
    rw [h2, h3]
  · intro lv h2 h3
    unfold riverbank_by_level RIVERBANK
    rw [if_neg h2, if_neg h3]
  · intro s lv
    simp [initialise_level, put_frog_in_start_position, increment_lives]

/-- Witness for the amended claim C6 at concrete levels. -/
theorem C6_amended_riverbank_selection_witness :
    riverbank_by_level 7 = RIVERBANK ∧ riverbank_by_level 2 = riverbank_by_level 8 :=
  ⟨C6_amended_riverbank_selection.2.1 7 (by decide) (by decide),
    C6_amended_riverbank_selection.1 2 8 (by decide) (by decide)⟩

/-- Claim C7 as amended: the speed-up starts at 0 and gains exactly 50 ms at
each level-complete transition, but there is no floor.  For the first
fifteen transitions the speed-up stays at or below the smallest base cadence
of 750 ms and the effective cadence thresholds of the five channels
(750/850/1000/1200/1300 minus the speed-up, in unsigned 32-bit arithmetic)
keep their ordering; at the sixteenth transition the speed-up reaches
800 ms, exceeding 750. -/
theorem C7_amended_speed_up :
    speed_up_after 0 = 0
      ∧ (∀ n, speed_up_after (n + 1) = (speed_up_after n + 50) % 65536)
      ∧ (∀ n, n ≤ 15 → speed_up_after n = 50 * n)
      ∧ (∀ n, n ≤ 15 →
          speed_up_after n ≤ 750
            ∧ sub32 750 (speed_up_after n) ≤ sub32 850 (speed_up_after n)
            ∧ sub32 850 (speed_up_after n) ≤ sub32 1000 (speed_up_after n)
            ∧ sub32 1000 (speed_up_after n) ≤ sub32 1200 (speed_up_after n)
            ∧ sub32 1200 (speed_up_after n) ≤ sub32 1300 (speed_up_after n))
      ∧ 750 < speed_up_after 16 := by
  refine ⟨rfl, fun n => rfl, ?_, ?_, by decide⟩
  · intro n hn
    interval_cases n <;> rfl
  · intro n hn
    interval_cases n <;> exact ⟨by decide, by decide, by decide, by decide, by decide⟩

/-- Witness for the amended claim C7 at a concrete level count. -/
theorem C7_amended_speed_up_witness :
    speed_up_after 3 = 50 * 3
      ∧ speed_up_after 3 ≤ 750
      ∧ sub32 750 (speed_up_after 3) ≤ sub32 850 (speed_up_after 3) :=
  ⟨C7_amended_speed_up.2.2.1 3 (by decide),
    (C7_amended_speed_up.2.2.2.1 3 (by decide)).1,
    (C7_amended_speed_up.2.2.2.1 3 (by decide)).2.1⟩

/-- Clamped lane positions always land back in the valid range. -/
theorem wrapLane_range (p : Int) : 0 ≤ wrapLane p ∧ wrapLane p < 64 := by
  unfold wrapLane
  split_ifs <;> omega

/-- Clamped log positions always land back in the valid range. -/
theorem wrapLog_range (p : Int) : 0 ≤ wrapLog p ∧ wrapLog p < 32 := by
  unfold wrapLog
  split_ifs <;> omega

/-- Reading back the lane position just written. -/
theorem lanePosition_setLanePosition (s : GameState) (lane : Nat) (p : Int) :
    lanePosition (setLanePosition s lane p) lane = p := by
  rcases lane with _ | _ | n <;> rfl

/-- Reading back the log position just written. -/
theorem logPosition_setLogPosition (s : GameState) (channel : Nat) (p : Int) :
    logPosition (setLogPosition s channel p) channel = p := by
  rcases channel with _ | n <;> rfl

/-- Decrementing lives leaves every lane position unchanged. -/
theorem lanePosition_decrement_lives (s : GameState) (lane : Nat) :
    lanePosition (decrement_lives s) lane = lanePosition s lane := by
  unfold decrement_lives
  split_ifs <;> rcases lane with _ | _ | n <;> rfl

/-- Decrementing lives leaves every log position unchanged. -/
theorem logPosition_decrement_lives (s : GameState) (channel : Nat) :
    logPosition (decrement_lives s) channel = logPosition s channel := by
  unfold decrement_lives
  split_ifs <;> rcases channel with _ | n <;> rfl

/-- Setting the death flag leaves every lane position unchanged. -/
theorem lanePosition_set_decrement (s : GameState) (b : Bool) (lane : Nat) :
    lanePosition { s with decrement := b } lane = lanePosition s lane := by
  rcases lane with _ | _ | n <;> rfl

/-- Moving the frog sideways leaves every log position unchanged. -/
theorem logPosition_set_frog_column (s : GameState) (c : Int) (channel : Nat) :
    logPosition { s with frog_column := c } channel = logPosition s channel := by
  rcases channel with _ | n <;> rfl

/-- A lane rotation updates the lane position to the clamped shift by
`-direction`, whatever else happens to the frog. -/
theorem lanePosition_scroll_vehicle_lane (s : GameState) (lane : Nat) (d : Int) :
    lanePosition (scroll_vehicle_lane s lane d) lane = wrapLane (lanePosition s lane - d) := by
  simp only [scroll_vehicle_lane]
  split_ifs <;>
    simp [lanePosition_decrement_lives, lanePosition_set_decrement, lanePosition_setLanePosition]

/-- A channel rotation updates the log position to the clamped shift by
`-direction`, whatever happens to the frog. -/
theorem logPosition_scroll_river_channel (s : GameState) (channel : Nat) (d : Int) :
    logPosition (scroll_river_channel s channel d) channel
      = wrapLog (logPosition s channel - d) := by
  simp only [scroll_river_channel]
  split_ifs <;>
    simp [logPosition_setLogPosition, logPosition_decrement_lives, logPosition_set_frog_column]

/-- Lane rotations never modify any occupancy pattern. -/
theorem scroll_vehicle_lane_patterns (s : GameState) (i : Nat) (d : Int) :
    (scroll_vehicle_lane s i d).lane_data0 = s.lane_data0
      ∧ (scroll_vehicle_lane s i d).lane_data1 = s.lane_data1
      ∧ (scroll_vehicle_lane s i d).lane_data2 = s.lane_data2
      ∧ (scroll_vehicle_lane s i d).log_data0 = s.log_data0
      ∧ (scroll_vehicle_lane s i d).log_data1 = s.log_data1 := by
  simp only [scroll_vehicle_lane, decrement_lives]
  rcases i with _ | _ | n <;> split_ifs <;> exact ⟨rfl, rfl, rfl, rfl, rfl⟩

/-- Explicit record-update form of the lives decrement, used to push
projections through it. -/
theorem decrement_lives_eq (s : GameState) :
    decrement_lives s =
      { s with frog_lives := u8dec s.frog_lives,
               frog_dead := if s.frog_lives = 4 ∨ s.frog_lives = 3 ∨ s.frog_lives = 2
                            then s.frog_dead else true } := by
  unfold decrement_lives
  split_ifs <;> simp_all

/-- Channel rotations never modify any occupancy pattern. -/
theorem scroll_river_channel_patterns (s : GameState) (i : Nat) (d : Int) :
    (scroll_river_channel s i d).lane_data0 = s.lane_data0
      ∧ (scroll_river_channel s i d).lane_data1 = s.lane_data1
      ∧ (scroll_river_channel s i d).lane_data2 = s.lane_data2
      ∧ (scroll_river_channel s i d).log_data0 = s.log_data0
      ∧ (scroll_river_channel s i d).log_data1 = s.log_data1 := by
  rcases i with _ | n <;>
    simp only [scroll_river_channel, decrement_lives_eq, setLogPosition] <;>
    split_ifs <;>
    simp

set_option maxRecDepth 16000 in
/-- Claim C9: every rotation keeps the lane offset in [0, 64) and the log
offset in [0, 32); rotations leave all five occupancy patterns untouched;
and rotating a traffic lane five times with direction +1 and then five times
with direction -1 returns its offset to the original value. -/
theorem C9_rotation_algebra :
    (∀ s lane d, 0 ≤ lanePosition (scroll_vehicle_lane s lane d) lane
        ∧ lanePosition (scroll_vehicle_lane s lane d) lane < 64)
      ∧ (∀ s channel d, 0 ≤ logPosition (scroll_river_channel s channel d) channel
        ∧ logPosition (scroll_river_channel s channel d) channel < 32)
      ∧ (∀ s i d, (scroll_vehicle_lane s i d).lane_data0 = s.lane_data0
          ∧ (scroll_vehicle_lane s i d).lane_data1 = s.lane_data1
          ∧ (scroll_vehicle_lane s i d).lane_data2 = s.lane_data2
          ∧ (scroll_vehicle_lane s i d).log_data0 = s.log_data0
          ∧ (scroll_vehicle_lane s i d).log_data1 = s.log_data1
          ∧ (scroll_river_channel s i d).lane_data0 = s.lane_data0
          ∧ (scroll_river_channel s i d).lane_data1 = s.lane_data1
          ∧ (scroll_river_channel s i d).lane_data2 = s.lane_data2
          ∧ (scroll_river_channel s i d).log_data0 = s.log_data0
          ∧ (scroll_river_channel s i d).log_data1 = s.log_data1)
      ∧ (∀ s lane, 0 ≤ lanePosition s lane → lanePosition s lane < 64 →
          lanePosition (scroll_vehicle_lane (scroll_vehicle_lane (scroll_vehicle_lane
            (scroll_vehicle_lane (scroll_vehicle_lane (scroll_vehicle_lane (scroll_vehicle_lane
            (scroll_vehicle_lane (scroll_vehicle_lane (scroll_vehicle_lane s lane 1) lane 1)
            lane 1) lane 1) lane 1) lane (-1)) lane (-1)) lane (-1)) lane (-1)) lane (-1)) lane
            = lanePosition s lane) := by
  refine ⟨?_, ?_, ?_, ?_⟩
  · intro s lane d
    rw [lanePosition_scroll_vehicle_lane]
    exact wrapLane_range _
  · intro s channel d
    rw [logPosition_scroll_river_channel]
    exact wrapLog_range _
  · intro s i d
    obtain ⟨a1, a2, a3, a4, a5⟩ := scroll_vehicle_lane_patterns s i d
    obtain ⟨b1, b2, b3, b4, b5⟩ := scroll_river_channel_patterns s i d
    exact ⟨a1, a2, a3, a4, a5, b1, b2, b3, b4, b5⟩
  · intro s lane h0 h64
    have key : ∀ n : Nat, n < 64 →
        wrapLane (wrapLane (wrapLane (wrapLane (wrapLane (wrapLane (wrapLane (wrapLane
          (wrapLane (wrapLane ((n : Int) - 1) - 1) - 1) - 1) - 1) - -1) - -1) - -1) - -1) - -1)
          = (n : Int) := by
      decide
    simp only [lanePosition_scroll_vehicle_lane]
    have hcast : ((lanePosition s lane).toNat : Int) = lanePosition s lane :=
      Int.toNat_of_nonneg h0
    rw [← hcast]
    exact key (lanePosition s lane).toNat (by omega)

/-- Witness for claim C9: the rotation round trip at a concrete state with
lane 0 at offset 62. -/
theorem C9_rotation_algebra_witness :
    0 ≤ lanePosition c9State 0 ∧ lanePosition c9State 0 < 64
      ∧ lanePosition (scroll_vehicle_lane (scroll_vehicle_lane (scroll_vehicle_lane
          (scroll_vehicle_lane (scroll_vehicle_lane (scroll_vehicle_lane (scroll_vehicle_lane
          (scroll_vehicle_lane (scroll_vehicle_lane (scroll_vehicle_lane c9State 0 1) 0 1)
          0 1) 0 1) 0 1) 0 (-1)) 0 (-1)) 0 (-1)) 0 (-1)) 0 (-1)) 0
          = lanePosition c9State 0 :=
  ⟨by decide, by decide, C9_rotation_algebra.2.2.2 c9State 0 (by decide) (by decide)⟩

end Frogger
